import Mathlib

/-
Verification of the semantic analyser implemented in `src/TypeChecker.py`.

The embedding is shallow and faithful to the Python source:
* a Python dict is an insertion-ordered association list (`dictSet`
  updates a present key in place and appends an absent one, exactly like
  CPython dicts);
* a Python set is a list with membership-guarded insertion;
* a raised exception is an `Except.error` that carries the checker state
  at the raise site (the Python object keeps all mutations performed
  before the exception propagates);
* `__init__` (lines 6-9) assigns `symbol_table`, `used_variables` and
  the compiled name regex, but never `inheritance_map`; the latter is
  therefore modelled as an `Option`, where `none` means "attribute
  absent", and every access of the attribute while it is absent is a
  Python `AttributeError`;
* printed lines (`show` output and unused-variable warnings) are
  recorded structurally in an output list.
-/

namespace PyTypeCheck

/-- One symbol-table record, as stored by the checker on lines 86, 134
and 176: a dict with a `type` and a `line` field. -/
structure SymEntry where
  type_ : String
  line : Nat
deriving Repr, DecidableEq

/-- Printed records: `Output: <type>` lines from show statements (line
60) and `declared but never used` warnings (line 46), kept with the
data the printed message carries. -/
inductive OutputRec where
  | showOut (type_ : String)
  | unusedWarn (var : String) (line : Nat)
deriving Repr, DecidableEq

/-- The mutable fields of one `TypeChecker` instance.  `inheritance_map`
is `none` as long as the attribute has never been assigned, which is the
situation `__init__` leaves the object in. -/
structure CheckerState where
  symbol_table : List (String × SymEntry)
  used_variables : List String
  inheritance_map : Option (List (String × Option String))
  output : List OutputRec
deriving Repr, DecidableEq

/-- The Python code raises bare `Exception`s distinguished only by their
message; the constructors tag each raise site with the error kind the
specification assigns to it, plus the two runtime errors Python itself
would raise (`AttributeError` for the missing `inheritance_map`
attribute, `TypeError` for hashing a dict). -/
inductive CheckError where
  | invalidName (msg : String)
  | redeclaration (msg : String)
  | undeclaredVariable (msg : String)
  | typeMismatch (msg : String)
  | invalidOperation (msg : String)
  | unsupportedConstruct (msg : String)
  | attributeError (msg : String)
  | typeError (msg : String)
deriving Repr, DecidableEq

/-- Lookup in an insertion-ordered dict. -/
def dictGet? {α : Type} (d : List (String × α)) (k : String) : Option α :=
  match d with
  | [] => none
  | (k', v) :: rest => if k' = k then some v else dictGet? rest k

/-- Python `k in d`. -/
def dictContains {α : Type} (d : List (String × α)) (k : String) : Bool :=
  (dictGet? d k).isSome

/-- Python `d[k] = v`: update a present key in place, append an absent
one (CPython dicts preserve insertion order this way). -/
def dictSet {α : Type} (d : List (String × α)) (k : String) (v : α) :
    List (String × α) :=
  match d with
  | [] => [(k, v)]
  | (k', v') :: rest => if k' = k then (k, v) :: rest else (k', v') :: dictSet rest k v

/-- Python `s.add(x)` on a set modelled as a list. -/
def setAdd (s : List String) (x : String) : List String :=
  if s.contains x then s else x :: s

/-- True when the whole character list belongs to
`[A-Za-z_][A-Za-z0-9_]*` (`Char.isAlpha` and `Char.isAlphanum` are the
ASCII classes, matching the literal ranges of the pattern). -/
def identChars : List Char → Bool
  | [] => false
  | c :: cs => (c.isAlpha || c = '_') && cs.all (fun d => d.isAlphanum || d = '_')

/-- Python `re.match` of the compiled pattern
`^[a-zA-Z_][a-zA-Z0-9_]*$` from line 9: in Python, `$` matches at the
end of the string or just before one newline that ends the string, so a
valid identifier followed by a single trailing newline also matches. -/
def valid_variable_pattern_match (s : String) : Bool :=
  identChars s.data || (s.data.getLast? == some '\n' && identChars s.data.dropLast)

/-- The language denoted by the anchored regex
`^[A-Za-z_][A-Za-z0-9_]*$` read as a plain regular expression over the
whole string.  This follows the specification's wording (section 4.1)
and exists to be compared with the Python matcher above. -/
def specAnchoredIdent (s : String) : Bool := identChars s.data

/-- Python `var_name.startswith('$')` (line 74): the first character of
the name is the sigil. -/
def startsWithSigil (s : String) : Bool := s.data.head? == some '$'

/-- Python `var_name[1:]` (line 78): everything after the first
character (Python slicing is character based). -/
def dropSigil (s : String) : String := ⟨s.data.tail⟩

/-- Message of line 75. -/
def sigilMsg (name : String) (line col : Nat) : String :=
  s!"Invalid variable name: '{name}' at line {line}, column {col}. Variable names must start with '$'."

/-- Message of line 79. -/
def identMsg (name : String) (line col : Nat) : String :=
  s!"Invalid variable name: '{name}' at line {line}, column {col}. Variable names must start with a letter or underscore and contain only alphanumeric characters."

/-- Message of line 83. -/
def redeclaredVarMsg (name : String) : String :=
  s!"Variable '{name}' already declared."

/-- Message of line 94. -/
def declMismatchMsg (initType varType name : String) (line col : Nat) : String :=
  s!"Type mismatch: Cannot assign {initType} to {varType} for variable '{name}' at line {line}, column {col}."

/-- Message of lines 105 and 234 (both sites format identically). -/
def undeclaredMsg (name : String) (line col : Nat) : String :=
  s!"Variable '{name}' not declared at line {line}, column {col}."

/-- Message of line 118; `declaredRepr` is the f-string rendering of the
`declared_type` value (which at this site is a whole record). -/
def assignMismatchMsg (exprType declaredRepr name : String) (line col : Nat) : String :=
  s!"Type mismatch: Cannot assign {exprType} to {declaredRepr} for variable '{name}' at line {line}, column {col}."

/-- Message of line 139. -/
def redeclaredMethodMsg (name : String) (line col : Nat) : String :=
  s!"Method '{name}' already declared at line {line}, column {col}."

/-- Message of line 150. -/
def returnMismatchMsg (expected got : String) (line col : Nat) : String :=
  s!"Type mismatch in return statement at line {line}, column {col}: expected {expected} but got {got}."

/-- Message of line 57. -/
def showNoneMsg (line col : Nat) : String :=
  s!"Cannot show a 'none' value at line {line}, column {col}."

/-- Message of line 204. -/
def additiveMismatchMsg (line col : Nat) (l r : String) : String :=
  s!"Type mismatch in additive expression at line {line}, column {col}: {l} and {r} are not the same."

/-- Message of line 225. -/
def multiplicativeMismatchMsg (line col : Nat) (l r : String) : String :=
  s!"Type mismatch in multiplicative expression at line {line}, column {col}: {l} and {r} are not the same."

/-- Message of line 254. -/
def unsupportedTermMsg (text : String) : String :=
  s!"Unsupported term: {text}"

/-- Message of line 265. -/
def unsupportedLiteralMsg (text : String) : String :=
  s!"Unsupported literal: {text}"

/-- Python message for reading the never-assigned attribute. -/
def noInheritanceAttrMsg : String :=
  "'TypeChecker' object has no attribute 'inheritance_map'"

/-- Python message for using a dict as a dict key. -/
def unhashableDictMsg : String :=
  "unhashable type: 'dict'"

/-- The value `visitAssignment` (line 111) binds to `declared_type`: the
whole symbol-table record, not the bare type string.  Keeping the two
shapes as one sum type lets the embedding reproduce how Python treats
each of them. -/
inductive PyVal where
  | str (s : String)
  | record (e : SymEntry)
deriving Repr, DecidableEq

/-- Python `==` between `declared_type` and the expression-type string
(line 23): a dict never equals a string, without error. -/
def pyEq : PyVal → String → Bool
  | .str u, t => u = t
  | .record _, _ => false

/-- Python f-string rendering of the value. -/
def pyStr : PyVal → String
  | .str u => u
  | .record e => "\x7b'type': '" ++ e.type_ ++ "', 'line': " ++ toString e.line ++ "\x7d"

/-- While loop of lines 28-32: follow recorded parents from `current`
until `declared` is reached or the chain ends at `None`.  The fuel
argument bounds the walk; on the acyclic maps the data model guarantees
(section 3 of the spec), `length + 2` steps always reach the end, so the
bounded walk agrees with the Python loop. -/
def inheritance_walk (m : List (String × Option String)) (declared : String) :
    Nat → Option String → Bool
  | _, none => false
  | 0, some _ => false
  | fuel + 1, some c =>
    if c = declared then true
    else inheritance_walk m declared fuel ((dictGet? m c).getD none)

/-- Lines 21-35, `is_type_compatible`.  The first comparison is Python
`==`; the membership test first reads `self.inheritance_map` (an
`AttributeError` when the attribute was never assigned) and then hashes
`declared_type` (a `TypeError` when it is a record). -/
def is_type_compatible (s : CheckerState) (declared_type : PyVal) (expr_type : String) :
    Except (CheckError × CheckerState) (Bool × CheckerState) :=
  if pyEq declared_type expr_type then .ok (true, s)
  else
    match s.inheritance_map with
    | none => .error (.attributeError noInheritanceAttrMsg, s)
    | some m =>
      match declared_type with
      | .record _ => .error (.typeError unhashableDictMsg, s)
      | .str d =>
        if (dictGet? m d).isSome then
          .ok (inheritance_walk m d (m.length + 2) (some expr_type), s)
        else .ok (false, s)

/-- Literal shapes of lines 256-265. -/
inductive Literal where
  | chunkLit
  | fractionLit
  | stringLit
  | otherLit (text : String)

mutual
/-- An expression node: `visitExpression` (lines 182-184) delegates to
its one additive child, so an expression is its additive node, carrying
the operand list and the node's source position. -/
inductive Expr where
  | mk (line col : Nat) (first : MulExpr) (rest : List MulExpr)

/-- A multiplicative node (lines 207-226): a nonempty list of terms. -/
inductive MulExpr where
  | mk (line col : Nat) (first : Term) (rest : List Term)

/-- Term shapes of lines 228-254.  The class-member accesses delegate to
sub-visitors that do not exist under `src/`; they are not needed by any
claim and are subsumed by the `unknown` fall-through only as far as the
claims use terms, so they are left out of the embedding. -/
inductive Term where
  | var (line col : Nat) (name : String)
  | lit (l : Literal)
  | paren (e : Expr)
  | unknown (text : String)
end

/-- Lines 256-265, `visitLiteral`. -/
def visitLiteral (l : Literal) (used : List String) :
    Except (CheckError × List String) (String × List String) :=
  match l with
  | .chunkLit => .ok ("chunk", used)
  | .fractionLit => .ok ("fraction", used)
  | .stringLit => .ok ("string", used)
  | .otherLit text => .error (.unsupportedConstruct (unsupportedLiteralMsg text), used)

/-- Promotion step of lines 196-200 (identical on lines 217-221): a
`chunk` operand paired with a `fraction` operand is promoted to
`fraction`; every other pair is left unchanged. -/
def promote (l r : String) : String × String :=
  if l = "chunk" && r = "fraction" then ("fraction", r)
  else if l = "fraction" && r = "chunk" then (l, "fraction")
  else (l, r)

mutual
/-- Lines 182-205: visit the first multiplicative operand, then fold the
remaining operands left to right.  The expression visitors only read the
symbol table and only extend the used-variable set, which the signature
makes explicit: they take the table read-only and thread the set. -/
def visitExpression (tbl : List (String × SymEntry)) :
    Expr → List String → Except (CheckError × List String) (String × List String)
  | .mk line col first rest, used =>
    match visitMultiplicative tbl first used with
    | .error r => .error r
    | .ok (t, used) => additiveFold tbl line col t rest used

/-- Loop of lines 193-205. -/
def additiveFold (tbl : List (String × SymEntry)) (line col : Nat) (left : String) :
    List MulExpr → List String → Except (CheckError × List String) (String × List String)
  | [], used => .ok (left, used)
  | m :: ms, used =>
    match visitMultiplicative tbl m used with
    | .error r => .error r
    | .ok (right, used) =>
      let p := promote left right
      if p.1 = p.2 then additiveFold tbl line col p.1 ms used
      else .error (.typeMismatch (additiveMismatchMsg line col p.1 p.2), used)

/-- Lines 207-226. -/
def visitMultiplicative (tbl : List (String × SymEntry)) :
    MulExpr → List String → Except (CheckError × List String) (String × List String)
  | .mk line col first rest, used =>
    match visitTerm tbl first used with
    | .error r => .error r
    | .ok (t, used) => multiplicativeFold tbl line col t rest used

/-- Loop of lines 214-226. -/
def multiplicativeFold (tbl : List (String × SymEntry)) (line col : Nat) (left : String) :
    List Term → List String → Except (CheckError × List String) (String × List String)
  | [], used => .ok (left, used)
  | t :: ts, used =>
    match visitTerm tbl t used with
    | .error r => .error r
    | .ok (right, used) =>
      let p := promote left right
      if p.1 = p.2 then multiplicativeFold tbl line col p.1 ts used
      else .error (.typeMismatch (multiplicativeMismatchMsg line col p.1 p.2), used)

/-- Lines 228-254, `visitTerm`: a variable reference must be declared,
is marked used and yields its declared type; literals and parenthesised
expressions delegate; anything else raises. -/
def visitTerm (tbl : List (String × SymEntry)) :
    Term → List String → Except (CheckError × List String) (String × List String)
  | .var line col name, used =>
    match dictGet? tbl name with
    | none => .error (.undeclaredVariable (undeclaredMsg name line col), used)
    | some e => .ok (e.type_, setAdd used name)
  | .lit l, used => visitLiteral l used
  | .paren e, used => visitExpression tbl e used
  | .unknown text, used => .error (.unsupportedConstruct (unsupportedTermMsg text), used)
end

/-- Statement shapes the checker dispatches on.  A method declaration
carries its signature, the statement list of its block, and the optional
return statement as a position plus expression.  (The class-declaration
visitor, lines 152-180, is not embedded: it depends on parser accessors
that are not under `src/` — calling `classDeclaration()` on a class
context and visiting a plain string as a node — and on the
`inheritance_map` attribute, whose absence makes its registration path
unreachable; no claim is settled on it.) -/
inductive Stmt where
  | varDecl (line col : Nat) (name type_ : String) (rhs : Option Expr)
  | assignment (line col : Nat) (name : String) (rhs : Expr)
  | showStmt (line col : Nat) (e : Expr)
  | methodDecl (line col : Nat) (name returnType : String)
      (params : List (String × String)) (body : List Stmt)
      (ret : Option (Nat × Nat × Expr))

/-- Lines 62-94, `visitVariableDeclaration`: sigil check, pattern check,
redeclaration check, insertion, then the optional initializer must have
exactly the declared type. -/
def visitVariableDeclaration (line col : Nat) (name type_ : String)
    (rhs : Option Expr) (s : CheckerState) :
    Except (CheckError × CheckerState) (Unit × CheckerState) :=
  if !startsWithSigil name then .error (.invalidName (sigilMsg name line col), s)
  else if !valid_variable_pattern_match (dropSigil name) then
    .error (.invalidName (identMsg name line col), s)
  else if dictContains s.symbol_table name then
    .error (.redeclaration (redeclaredVarMsg name), s)
  else
    let s1 : CheckerState := { s with symbol_table := dictSet s.symbol_table name ⟨type_, line⟩ }
    match rhs with
    | none => .ok ((), s1)
    | some e =>
      match visitExpression s1.symbol_table e s1.used_variables with
      | .error (err, used) => .error (err, { s1 with used_variables := used })
      | .ok (t, used) =>
        let s2 : CheckerState := { s1 with used_variables := used }
        if t ≠ type_ then
          .error (.typeMismatch (declMismatchMsg t type_ name line col), s2)
        else .ok ((), s2)

/-- Lines 96-120, `visitAssignment`: the target must be declared, is
marked used, and `declared_type` is bound to the whole symbol-table
record (line 111) before `is_type_compatible` decides the outcome. -/
def visitAssignment (line col : Nat) (name : String) (e : Expr) (s : CheckerState) :
    Except (CheckError × CheckerState) (Unit × CheckerState) :=
  match dictGet? s.symbol_table name with
  | none => .error (.undeclaredVariable (undeclaredMsg name line col), s)
  | some entry =>
    let s1 : CheckerState := { s with used_variables := setAdd s.used_variables name }
    match visitExpression s1.symbol_table e s1.used_variables with
    | .error (err, used) => .error (err, { s1 with used_variables := used })
    | .ok (t, used) =>
      let s2 : CheckerState := { s1 with used_variables := used }
      match is_type_compatible s2 (.record entry) t with
      | .error r => .error r
      | .ok (true, s3) => .ok ((), s3)
      | .ok (false, s3) =>
        .error (.typeMismatch (assignMismatchMsg t (pyStr (.record entry)) name line col), s3)

/-- Lines 48-60, `visitShowStatement`: infer the operand type, reject
`none`, otherwise record one `Output: <type>` line. -/
def visitShowStatement (line col : Nat) (e : Expr) (s : CheckerState) :
    Except (CheckError × CheckerState) (Unit × CheckerState) :=
  match visitExpression s.symbol_table e s.used_variables with
  | .error (err, used) => .error (err, { s with used_variables := used })
  | .ok (t, used) =>
    let s1 : CheckerState := { s with used_variables := used }
    if t = "none" then .error (.invalidOperation (showNoneMsg line col), s1)
    else .ok ((), { s1 with output := s1.output ++ [.showOut t] })

mutual
/-- Statement dispatch of the generated visitor.  The method-declaration
arm is lines 122-150: every parameter is written into the symbol table
(keyed by its name, at the method's line) with no validity or presence
check, then the method name is tested against the symbol table, the
block's statements are visited, and the optional return expression must
match the declared return type exactly.  Modelled from the spec: the
generated base visitor that walks a method block is not under `src/`;
per section 4.1 the body is recursively analyzed by the traversal
driver, and the return expression is inferred once for the return-type
check. -/
def visitStmt (st : Stmt) (s : CheckerState) :
    Except (CheckError × CheckerState) (Unit × CheckerState) :=
  match st with
  | .varDecl line col name ty rhs => visitVariableDeclaration line col name ty rhs s
  | .assignment line col name e => visitAssignment line col name e s
  | .showStmt line col e => visitShowStatement line col e s
  | .methodDecl line col name returnType params body ret =>
    let s1 : CheckerState :=
      { s with symbol_table :=
          params.foldl (fun tb p => dictSet tb p.1 ⟨p.2, line⟩) s.symbol_table }
    if dictContains s1.symbol_table name then
      .error (.redeclaration (redeclaredMethodMsg name line col), s1)
    else
      match visitStatements body s1 with
      | .error r => .error r
      | .ok ((), s2) =>
        match ret with
        | none => .ok ((), s2)
        | some (rl, rc, e) =>
          match visitExpression s2.symbol_table e s2.used_variables with
          | .error (err, used) => .error (err, { s2 with used_variables := used })
          | .ok (t, used) =>
            let s3 : CheckerState := { s2 with used_variables := used }
            if t ≠ returnType then
              .error (.typeMismatch (returnMismatchMsg returnType t rl rc), s3)
            else .ok ((), s3)

/-- Loop of lines 39-40: statements are visited in order, and the first
raised exception aborts the rest. -/
def visitStatements (l : List Stmt) (s : CheckerState) :
    Except (CheckError × CheckerState) (Unit × CheckerState) :=
  match l with
  | [] => .ok ((), s)
  | st :: rest =>
    match visitStmt st s with
    | .error r => .error r
    | .ok ((), s1) => visitStatements rest s1
end

/-- Unused-variable sweep of lines 42-46: iterate the symbol table in
insertion order and warn once for every entry whose name is not in the
used set. -/
def unusedWarnings (tbl : List (String × SymEntry)) (used : List String) : List OutputRec :=
  (tbl.filter fun p => !(used.contains p.1)).map fun p => .unusedWarn p.1 p.2.line

/-- Lines 37-46, `visitProgram`. -/
def visitProgram (stmts : List Stmt) (s : CheckerState) :
    Except (CheckError × CheckerState) (Unit × CheckerState) :=
  match visitStatements stmts s with
  | .error r => .error r
  | .ok ((), s1) =>
    .ok ((), { s1 with output := s1.output ++ unusedWarnings s1.symbol_table s1.used_variables })

/-- State of a freshly constructed `TypeChecker` (lines 6-9):
`symbol_table` and `used_variables` are created empty, but
`inheritance_map` is never assigned. -/
def newTypeChecker : CheckerState :=
  { symbol_table := [], used_variables := [], inheritance_map := none, output := [] }

/-- One analysis run on a fresh checker. -/
def runProgram (stmts : List Stmt) :
    Except (CheckError × CheckerState) (Unit × CheckerState) :=
  visitProgram stmts newTypeChecker

/-- Expression consisting of a single term (one multiplicative operand
holding one term). -/
def singleTermExpr (line col : Nat) (t : Term) : Expr :=
  .mk line col (.mk line col t []) []

theorem dictGet_dictSet_same {α : Type} (d : List (String × α)) (k : String) (v : α) :
    dictGet? (dictSet d k v) k = some v := by
  induction d with
  | nil => simp [dictSet, dictGet?]
  | cons p rest ih =>
    obtain ⟨k', v'⟩ := p
    by_cases h : k' = k <;> simp [dictSet, dictGet?, h, ih]

theorem setAdd_contains (s : List String) (x : String) :
    (setAdd s x).contains x = true := by
  by_cases h : s.contains x <;> simp_all [setAdd]

theorem unusedWarn_not_mem_of_used (tbl : List (String × SymEntry)) (used : List String)
    (v : String) (line : Nat) (hused : used.contains v = true) :
    OutputRec.unusedWarn v line ∉ unusedWarnings tbl used := by
  intro hmem
  simp only [unusedWarnings, List.mem_map, List.mem_filter] at hmem
  obtain ⟨⟨k, e⟩, ⟨hk, hf⟩, heq⟩ := hmem
  cases heq
  simp_all

theorem unusedWarn_not_mem_of_not_key (tbl : List (String × SymEntry)) (used : List String)
    (v : String) (line : Nat) (hv : v ∉ tbl.map Prod.fst) :
    OutputRec.unusedWarn v line ∉ unusedWarnings tbl used := by
  intro hmem
  simp only [unusedWarnings, List.mem_map, List.mem_filter] at hmem
  obtain ⟨⟨k, e⟩, ⟨hk, hf⟩, heq⟩ := hmem
  cases heq
  exact hv (List.mem_map_of_mem Prod.fst hk)

theorem count_unusedWarn (tbl : List (String × SymEntry)) (used : List String)
    (v : String) (e : SymEntry) (hnd : (tbl.map Prod.fst).Nodup)
    (hmem : (v, e) ∈ tbl) (hun : used.contains v = false) :
    ((unusedWarnings tbl used).filter
      fun r => r = OutputRec.unusedWarn v e.line).length = 1 := by
  induction tbl with
  | nil => cases hmem
  | cons p rest ih =>
    obtain ⟨k, en⟩ := p
    simp only [List.map_cons, List.nodup_cons] at hnd
    obtain ⟨hknotin, hndrest⟩ := hnd
    by_cases hkv : k = v
    · subst hkv
      have he : en = e := by
        rcases List.mem_cons.mp hmem with h | h
        · injection h with h1 h2
          exact h2.symm
        · exact absurd (List.mem_map_of_mem Prod.fst h) hknotin
      subst he
      have hrest : OutputRec.unusedWarn k en.line ∉ unusedWarnings rest used :=
        unusedWarn_not_mem_of_not_key rest used k en.line hknotin
      have hfilter : (unusedWarnings rest used).filter
          (fun r => r = OutputRec.unusedWarn k en.line) = [] := by
        rw [List.filter_eq_nil_iff]
        intro a ha
        simp only [decide_eq_true_eq]
        intro hEq
        exact hrest (hEq ▸ ha)
      have hunm : k ∉ used := by simpa using hun
      simp only [unusedWarnings] at hfilter ⊢
      simp_all [List.filter_cons]
      exact hfilter
    · have hmem' : (v, e) ∈ rest := by
        rcases List.mem_cons.mp hmem with h | h
        · exact absurd (congrArg Prod.fst h).symm hkv
        · exact h
      have tail := ih hndrest hmem'
      simp only [unusedWarnings] at tail ⊢
      by_cases hkept : k ∈ used
      · simpa [List.filter_cons, hkept] using tail
      · have hne : OutputRec.unusedWarn k en.line ≠ OutputRec.unusedWarn v e.line := by
          simp [hkv]
        simpa [List.filter_cons, hkept, hne] using tail

/-- Claim C1: the claim says an assignment whose expression type equals
the target's declared type succeeds via `isCompatible`.  The code
instead binds `declared_type` to the whole symbol-table record (line
111), which never equals a type string, and `is_type_compatible` then
reads the never-assigned `inheritance_map` attribute, so even the
declaration `$x: chunk` followed by the well-typed assignment
`$x = <chunk literal>` aborts with an `AttributeError` instead of
succeeding. -/
theorem c1_assignment_checks_record_and_crashes :
    pyEq (PyVal.record ⟨"chunk", 1⟩) "chunk" = false ∧
    runProgram [.varDecl 1 0 "$x" "chunk" none,
        .assignment 2 0 "$x" (singleTermExpr 2 5 (.lit .chunkLit))] =
      .error (.attributeError noInheritanceAttrMsg,
        { symbol_table := [("$x", ⟨"chunk", 1⟩)], used_variables := ["$x"],
          inheritance_map := none, output := [] }) := ⟨rfl, rfl⟩

/-- Claim C2: the claim says the symbol table and the inheritance map
are both created empty at the start of every run, so no later access of
the inheritance map fails with an uninitialized-state error.  In the
code `__init__` never assigns `inheritance_map`, and the compatibility
walk's very first read of it (line 27) raises `AttributeError`, as the
run of a program containing one assignment shows. -/
theorem c2_inheritance_map_never_created :
    newTypeChecker.inheritance_map = none ∧
    is_type_compatible newTypeChecker (.str "Base") "Sub" =
      .error (.attributeError noInheritanceAttrMsg, newTypeChecker) ∧
    runProgram [.varDecl 1 0 "$y" "fraction" none,
        .assignment 2 0 "$y" (singleTermExpr 2 5 (.lit .fractionLit))] =
      .error (.attributeError noInheritanceAttrMsg,
        { symbol_table := [("$y", ⟨"fraction", 1⟩)], used_variables := ["$y"],
          inheritance_map := none, output := [] }) := ⟨rfl, rfl, rfl⟩

/-- Claim C3, counterexample: a method parameter named `123` — a name
that passes neither the sigil check nor the identifier pattern — is
registered in the symbol table anyway, and the run finishes without any
error, so the final table holds a key that no Declaration Validator
check ever passed. -/
theorem c3_counterexample :
    startsWithSigil "123" = false ∧ valid_variable_pattern_match "123" = false ∧
    runProgram [.methodDecl 1 0 "m" "chunk" [("123", "chunk")] [] none] =
      .ok ((),
        { symbol_table := [("123", ⟨"chunk", 1⟩)], used_variables := [],
          inheritance_map := none, output := [.unusedWarn "123" 1] }) := ⟨rfl, rfl, rfl⟩

/-- Claim C4, counterexample: two method declarations with the same name
`foo` both succeed — the whole program runs to completion unchanged —
because a method declaration never inserts the method name into the
symbol table, so the second declaration's redeclaration test finds
nothing. -/
theorem c4_counterexample :
    runProgram [.methodDecl 1 0 "foo" "chunk" [] [] none,
        .methodDecl 2 0 "foo" "chunk" [] [] none] = .ok ((), newTypeChecker) := rfl

/-- Claim C9, counterexample: the name `$a\n` starts with the sigil but
its remainder `a\n` is not in the language of the anchored regex
`^[A-Za-z_][A-Za-z0-9_]*$`; the claim therefore demands a fatal
`InvalidNameError`, yet the declaration succeeds, because Python's
`re.match` lets `$` also match just before one trailing newline. -/
theorem c9_counterexample :
    specAnchoredIdent (dropSigil "$a\n") = false ∧
    visitStmt (.varDecl 1 0 "$a\n" "chunk" none) newTypeChecker =
      .ok ((),
        { symbol_table := [("$a\n", ⟨"chunk", 1⟩)], used_variables := [],
          inheritance_map := none, output := [] }) := ⟨rfl, rfl⟩

/-- Claim C9, amended: declaring a variable whose name does not start
with the sigil `$` fails with a fatal `InvalidNameError`; so does one
whose remainder fails Python's `re.match` of
`^[A-Za-z_][A-Za-z0-9_]*$` — whose `$` anchor also accepts exactly one
trailing newline after a matching identifier; a name passing the sigil
check and that Python match passes the name checks (shown on a
declaration without initializer, which then succeeds when the name is
not yet declared). -/
theorem c9_amended (s : CheckerState) (line col : Nat) (name type_ : String)
    (rhs : Option Expr) :
    (startsWithSigil name = false →
      visitStmt (.varDecl line col name type_ rhs) s =
        .error (.invalidName (sigilMsg name line col), s)) ∧
    (startsWithSigil name = true → valid_variable_pattern_match (dropSigil name) = false →
      visitStmt (.varDecl line col name type_ rhs) s =
        .error (.invalidName (identMsg name line col), s)) ∧
    (startsWithSigil name = true → valid_variable_pattern_match (dropSigil name) = true →
      dictContains s.symbol_table name = false →
      visitStmt (.varDecl line col name type_ none) s =
        .ok ((), { s with symbol_table := dictSet s.symbol_table name ⟨type_, line⟩ })) := by
  refine ⟨fun h1 => ?_, fun h1 h2 => ?_, fun h1 h2 h3 => ?_⟩
  · simp [visitStmt, visitVariableDeclaration, h1]
  · simp [visitStmt, visitVariableDeclaration, h1, h2]
  · simp [visitStmt, visitVariableDeclaration, h1, h2, h3]

/-- Witness for the amended C9 theorem at concrete inputs: a name
without sigil, a name with a digit after the sigil, and a well-formed
fresh name. -/
theorem c9_amended_witness :
    visitStmt (.varDecl 1 0 "x" "chunk" none) newTypeChecker =
      .error (.invalidName (sigilMsg "x" 1 0), newTypeChecker) ∧
    visitStmt (.varDecl 1 0 "$9" "chunk" none) newTypeChecker =
      .error (.invalidName (identMsg "$9" 1 0), newTypeChecker) ∧
    visitStmt (.varDecl 1 0 "$ok" "chunk" none) newTypeChecker =
      .ok ((),
        { symbol_table := [("$ok", ⟨"chunk", 1⟩)], used_variables := [],
          inheritance_map := none, output := [] }) :=
  ⟨(c9_amended newTypeChecker 1 0 "x" "chunk" none).1 rfl,
   (c9_amended newTypeChecker 1 0 "$9" "chunk" none).2.1 rfl rfl,
   ((c9_amended newTypeChecker 1 0 "$ok" "chunk" none).2.2 rfl rfl rfl).trans rfl⟩

/-- Claim C4, amended: a second variable declaration of an
already-present name fails with a fatal `RedeclarationError`, and a
method declaration whose name is already a symbol-table key fails the
same way; but method names are never inserted into the symbol table (a
successful method declaration with no parameters leaves the state
unchanged), so a second method declaration with the same method name
does not fail. -/
theorem c4_amended :
    (∀ (s : CheckerState) (line col : Nat) (name type_ : String) (rhs : Option Expr),
      startsWithSigil name = true → valid_variable_pattern_match (dropSigil name) = true →
      dictContains s.symbol_table name = true →
      visitStmt (.varDecl line col name type_ rhs) s =
        .error (.redeclaration (redeclaredVarMsg name), s)) ∧
    (∀ (s : CheckerState) (line col : Nat) (name returnType : String),
      dictContains s.symbol_table name = true →
      visitStmt (.methodDecl line col name returnType [] [] none) s =
        .error (.redeclaration (redeclaredMethodMsg name line col), s)) ∧
    (∀ (s : CheckerState) (line col : Nat) (name returnType : String),
      dictContains s.symbol_table name = false →
      visitStmt (.methodDecl line col name returnType [] [] none) s = .ok ((), s)) := by
  refine ⟨fun s line col name type_ rhs h1 h2 h3 => ?_,
    fun s line col name returnType h => ?_, fun s line col name returnType h => ?_⟩
  · simp [visitStmt, visitVariableDeclaration, h1, h2, h3]
  · simp [visitStmt, h]
  · simp [visitStmt, visitStatements, h]

/-- Witness for the amended C4 theorem: redeclaring `$x` over a table
holding `$x` errors, declaring a method named like the table key `dup`
errors, and a fresh method declaration leaves the state unchanged. -/
theorem c4_amended_witness :
    visitStmt (.varDecl 2 0 "$x" "chunk" none)
      { symbol_table := [("$x", ⟨"chunk", 1⟩)], used_variables := [],
        inheritance_map := none, output := [] } =
      .error (.redeclaration (redeclaredVarMsg "$x"),
        { symbol_table := [("$x", ⟨"chunk", 1⟩)], used_variables := [],
          inheritance_map := none, output := [] }) ∧
    visitStmt (.methodDecl 2 0 "dup" "chunk" [] [] none)
      { symbol_table := [("dup", ⟨"chunk", 1⟩)], used_variables := [],
        inheritance_map := none, output := [] } =
      .error (.redeclaration (redeclaredMethodMsg "dup" 2 0),
        { symbol_table := [("dup", ⟨"chunk", 1⟩)], used_variables := [],
          inheritance_map := none, output := [] }) ∧
    visitStmt (.methodDecl 1 0 "fresh" "chunk" [] [] none) newTypeChecker =
      .ok ((), newTypeChecker) :=
  ⟨c4_amended.1 _ 2 0 "$x" "chunk" none rfl rfl rfl,
   c4_amended.2.1 _ 2 0 "dup" "chunk" rfl,
   c4_amended.2.2 _ 1 0 "fresh" "chunk" rfl⟩

/-- Claim C3, amended: every key inserted by the variable-declaration
path did pass the Declaration Validator's checks — a successful variable
declaration implies the sigil check, the pattern match and the absence
check all held — but method parameters (and likewise class fields)
bypass the validator: a parameter is written into the symbol table with
no validity or presence check, on the success and on the error path
alike. -/
theorem c3_amended :
    (∀ (s s' : CheckerState) (line col : Nat) (name type_ : String) (rhs : Option Expr),
      visitStmt (.varDecl line col name type_ rhs) s = .ok ((), s') →
      startsWithSigil name = true ∧ valid_variable_pattern_match (dropSigil name) = true ∧
        dictContains s.symbol_table name = false) ∧
    (∀ (s : CheckerState) (line col : Nat) (name returnType pn pt : String),
      (∀ s', visitStmt (.methodDecl line col name returnType [(pn, pt)] [] none) s =
          .ok ((), s') → dictGet? s'.symbol_table pn = some ⟨pt, line⟩) ∧
      (∀ err s', visitStmt (.methodDecl line col name returnType [(pn, pt)] [] none) s =
          .error (err, s') → dictGet? s'.symbol_table pn = some ⟨pt, line⟩)) := by
  constructor
  · intro s s' line col name type_ rhs hok
    by_cases h1 : startsWithSigil name
    · by_cases h2 : valid_variable_pattern_match (dropSigil name)
      · by_cases h3 : dictContains s.symbol_table name
        · simp [visitStmt, visitVariableDeclaration, h1, h2, h3] at hok
        · exact ⟨h1, h2, by simpa using h3⟩
      · simp [visitStmt, visitVariableDeclaration, h1, h2] at hok
    · simp [visitStmt, visitVariableDeclaration, h1] at hok
  · intro s line col name returnType pn pt
    by_cases h : dictContains (dictSet s.symbol_table pn ⟨pt, line⟩) name
    · constructor
      · intro s' hok
        simp [visitStmt, h] at hok
      · intro err s' herr
        simp [visitStmt, h] at herr
        rw [← herr.2]
        simpa using dictGet_dictSet_same s.symbol_table pn ⟨pt, line⟩
    · constructor
      · intro s' hok
        simp [visitStmt, visitStatements, h] at hok
        rw [← hok]
        simpa using dictGet_dictSet_same s.symbol_table pn ⟨pt, line⟩
      · intro err s' herr
        simp [visitStmt, visitStatements, h] at herr

/-- Witness for the amended C3 theorem: a concrete successful
declaration of `$z` yields all three validator facts, and a concrete
method declaration registers its parameter `123` unchecked. -/
theorem c3_amended_witness :
    (startsWithSigil "$z" = true ∧ valid_variable_pattern_match (dropSigil "$z") = true ∧
      dictContains (newTypeChecker.symbol_table) "$z" = false) ∧
    dictGet? ([("123", ⟨"chunk", 1⟩)] : List (String × SymEntry)) "123" =
      some ⟨"chunk", 1⟩ :=
  ⟨c3_amended.1 newTypeChecker
      { symbol_table := [("$z", ⟨"chunk", 1⟩)], used_variables := [],
        inheritance_map := none, output := [] } 1 0 "$z" "chunk" none rfl,
   (c3_amended.2 newTypeChecker 1 0 "m" "chunk" "123" "chunk").1
      { symbol_table := [("123", ⟨"chunk", 1⟩)], used_variables := [],
        inheritance_map := none, output := [] } rfl⟩

/-- Claim C5: in additive and multiplicative expressions a `chunk`
operand paired with a `fraction` operand infers to `fraction` in either
order, a `chunk` operand paired with a `string` operand raises a fatal
`TypeMismatchError` whose message names both types, and the promotion
step changes no pair other than `chunk`/`fraction`. -/
theorem c5_numeric_promotion :
    (∀ (tbl : List (String × SymEntry)) (used : List String) (l c l1 c1 l2 c2 : Nat),
      visitExpression tbl
        (.mk l c (.mk l1 c1 (.lit .chunkLit) []) [.mk l2 c2 (.lit .fractionLit) []]) used =
        .ok ("fraction", used)) ∧
    (∀ (tbl : List (String × SymEntry)) (used : List String) (l c l1 c1 l2 c2 : Nat),
      visitExpression tbl
        (.mk l c (.mk l1 c1 (.lit .fractionLit) []) [.mk l2 c2 (.lit .chunkLit) []]) used =
        .ok ("fraction", used)) ∧
    (∀ (tbl : List (String × SymEntry)) (used : List String) (l c l1 c1 l2 c2 : Nat),
      visitExpression tbl
        (.mk l c (.mk l1 c1 (.lit .chunkLit) []) [.mk l2 c2 (.lit .stringLit) []]) used =
        .error (.typeMismatch (additiveMismatchMsg l c "chunk" "string"), used)) ∧
    (∀ (tbl : List (String × SymEntry)) (used : List String) (l c : Nat),
      visitMultiplicative tbl (.mk l c (.lit .chunkLit) [.lit .fractionLit]) used =
        .ok ("fraction", used)) ∧
    (∀ (tbl : List (String × SymEntry)) (used : List String) (l c : Nat),
      visitMultiplicative tbl (.mk l c (.lit .fractionLit) [.lit .chunkLit]) used =
        .ok ("fraction", used)) ∧
    (∀ (tbl : List (String × SymEntry)) (used : List String) (l c : Nat),
      visitMultiplicative tbl (.mk l c (.lit .chunkLit) [.lit .stringLit]) used =
        .error (.typeMismatch (multiplicativeMismatchMsg l c "chunk" "string"), used)) ∧
    (∀ l r : String, ¬(l = "chunk" ∧ r = "fraction") → ¬(l = "fraction" ∧ r = "chunk") →
      promote l r = (l, r)) := by
  refine ⟨fun _ _ _ _ _ _ _ _ => rfl, fun _ _ _ _ _ _ _ _ => rfl,
    fun _ _ _ _ _ _ _ _ => rfl, fun _ _ _ _ => rfl, fun _ _ _ _ => rfl,
    fun _ _ _ _ => rfl, ?_⟩
  intro l r h1 h2
  have e1 : (decide (l = "chunk") && decide (r = "fraction")) = false := by
    by_cases a : l = "chunk" <;> by_cases b : r = "fraction" <;> simp_all
  have e2 : (decide (l = "fraction") && decide (r = "chunk")) = false := by
    by_cases a : l = "fraction" <;> by_cases b : r = "chunk" <;> simp_all
  simp [promote, e1, e2]

/-- Witness for C5 at concrete inputs: one mixed-literal addition and
one non-numeric pair left unpromoted. -/
theorem c5_witness :
    visitExpression []
      (.mk 1 0 (.mk 1 0 (.lit .chunkLit) []) [.mk 1 4 (.lit .fractionLit) []]) [] =
      .ok ("fraction", []) ∧
    promote "string" "chunk" = ("string", "chunk") :=
  ⟨c5_numeric_promotion.1 [] [] 1 0 1 0 1 4,
   c5_numeric_promotion.2.2.2.2.2.2 "string" "chunk" (by decide) (by decide)⟩

/-- Claim C6: a variable declaration with an initializer succeeds
exactly when the initializer's inferred type is textually equal to the
declared type, and otherwise raises a fatal `TypeMismatchError`; the
outcome never consults the inheritance map, so a subclass-typed
initializer for an ancestor-typed declaration is rejected. -/
theorem c6_declaration_requires_exact_type (s : CheckerState) (line col : Nat)
    (name type_ t : String) (e : Expr) (used : List String)
    (hsig : startsWithSigil name = true)
    (hpat : valid_variable_pattern_match (dropSigil name) = true)
    (habs : dictContains s.symbol_table name = false)
    (hvisit : visitExpression (dictSet s.symbol_table name ⟨type_, line⟩) e
        s.used_variables = .ok (t, used)) :
    visitStmt (.varDecl line col name type_ (some e)) s =
      (if t = type_ then
        .ok ((),
          { s with
              symbol_table := dictSet s.symbol_table name ⟨type_, line⟩,
              used_variables := used })
      else
        .error (.typeMismatch (declMismatchMsg t type_ name line col),
          { s with
              symbol_table := dictSet s.symbol_table name ⟨type_, line⟩,
              used_variables := used })) := by
  by_cases ht : t = type_ <;>
    simp [visitStmt, visitVariableDeclaration, hsig, hpat, habs, hvisit, ht]

/-- Witness for C6: with `Sub` recorded as a child of `Base` in the
inheritance map, the declaration `$b: Base = $s` where `$s` has type
`Sub` is still rejected with a `TypeMismatchError`. -/
theorem c6_witness :
    visitStmt (.varDecl 2 0 "$b" "Base" (some (singleTermExpr 2 8 (.var 2 8 "$s"))))
      { symbol_table := [("$s", ⟨"Sub", 1⟩)], used_variables := [],
        inheritance_map := some [("Sub", some "Base"), ("Base", none)], output := [] } =
      .error (.typeMismatch (declMismatchMsg "Sub" "Base" "$b" 2 0),
        { symbol_table := [("$s", ⟨"Sub", 1⟩), ("$b", ⟨"Base", 2⟩)],
          used_variables := ["$s"],
          inheritance_map := some [("Sub", some "Base"), ("Base", none)],
          output := [] }) := by
  have h := c6_declaration_requires_exact_type
      ⟨[("$s", ⟨"Sub", 1⟩)], [], some [("Sub", some "Base"), ("Base", none)], []⟩
      2 0 "$b" "Base" "Sub" (singleTermExpr 2 8 (.var 2 8 "$s")) ["$s"] rfl rfl rfl rfl
  exact h.trans rfl

/-- Claim C7: when every statement completes without a fatal error, the
program pass succeeds and appends the unused-variable warnings — the
symbol table filtered in insertion order — to the output; every entry
whose name is not in the used set contributes exactly one warning
carrying its name and declaration line (given the key uniqueness a dict
guarantees), and an entry whose name was used contributes none; the
warnings never change the success outcome. -/
theorem c7_unused_variable_report (stmts : List Stmt) (s s' : CheckerState)
    (hrun : visitStatements stmts s = .ok ((), s'))
    (hnd : (s'.symbol_table.map Prod.fst).Nodup) :
    visitProgram stmts s =
      .ok ((),
        { s' with
            output := s'.output ++ unusedWarnings s'.symbol_table s'.used_variables }) ∧
    (∀ (v : String) (e : SymEntry), (v, e) ∈ s'.symbol_table →
      (s'.used_variables.contains v = false →
        ((unusedWarnings s'.symbol_table s'.used_variables).filter
          fun r => r = OutputRec.unusedWarn v e.line).length = 1) ∧
      (s'.used_variables.contains v = true →
        OutputRec.unusedWarn v e.line ∉ unusedWarnings s'.symbol_table s'.used_variables)) := by
  refine ⟨by simp [visitProgram, hrun], fun v e hmem => ⟨fun hun => ?_, fun hus => ?_⟩⟩
  · exact count_unusedWarn _ _ _ _ hnd hmem hun
  · exact unusedWarn_not_mem_of_used _ _ _ _ hus

/-- Witness for C7: declaring `$x` and `$y`, then showing `$x`, yields a
run whose report warns exactly once about `$y` (name and line 2) and
not at all about the referenced `$x`. -/
theorem c7_witness :
    visitProgram
      [.varDecl 1 0 "$x" "chunk" (some (singleTermExpr 1 10 (.lit .chunkLit))),
        .varDecl 2 0 "$y" "string" (some (singleTermExpr 2 10 (.lit .stringLit))),
        .showStmt 3 0 (singleTermExpr 3 5 (.var 3 5 "$x"))] newTypeChecker =
      .ok ((),
        { symbol_table := [("$x", ⟨"chunk", 1⟩), ("$y", ⟨"string", 2⟩)],
          used_variables := ["$x"], inheritance_map := none,
          output := [.showOut "chunk", .unusedWarn "$y" 2] }) ∧
    ((unusedWarnings [("$x", ⟨"chunk", 1⟩), ("$y", ⟨"string", 2⟩)] ["$x"]).filter
      fun r => r = OutputRec.unusedWarn "$y" 2).length = 1 ∧
    OutputRec.unusedWarn "$x" 1 ∉
      unusedWarnings [("$x", ⟨"chunk", 1⟩), ("$y", ⟨"string", 2⟩)] ["$x"] := by
  have h := c7_unused_variable_report
      [.varDecl 1 0 "$x" "chunk" (some (singleTermExpr 1 10 (.lit .chunkLit))),
        .varDecl 2 0 "$y" "string" (some (singleTermExpr 2 10 (.lit .stringLit))),
        .showStmt 3 0 (singleTermExpr 3 5 (.var 3 5 "$x"))] newTypeChecker
      ⟨[("$x", ⟨"chunk", 1⟩), ("$y", ⟨"string", 2⟩)], ["$x"], none, [.showOut "chunk"]⟩
      rfl (by decide)
  refine ⟨h.1.trans rfl, ?_, ?_⟩
  · exact (h.2 "$y" ⟨"string", 2⟩ (by simp)).1 rfl
  · exact (h.2 "$x" ⟨"chunk", 1⟩ (by simp)).2 rfl

/-- Claim C8: a show statement whose operand infers to `none` raises a
fatal `InvalidOperationError` whose message carries the statement's line
and column; any other inferred type succeeds and appends exactly one
`Output: <type>` record. -/
theorem c8_show_statement (s : CheckerState) (line col : Nat) (e : Expr) (t : String)
    (used : List String)
    (hvisit : visitExpression s.symbol_table e s.used_variables = .ok (t, used)) :
    visitStmt (.showStmt line col e) s =
      (if t = "none" then
        .error (.invalidOperation (showNoneMsg line col), { s with used_variables := used })
      else
        .ok ((),
          { s with
              used_variables := used,
              output := s.output ++ [.showOut t] })) := by
  by_cases ht : t = "none" <;> simp [visitStmt, visitShowStatement, hvisit, ht]

/-- Witness for C8: showing a chunk literal emits `Output: chunk`, and
showing a variable of declared type `none` raises the
`InvalidOperationError` with the statement's position. -/
theorem c8_witness :
    visitStmt (.showStmt 1 0 (singleTermExpr 1 5 (.lit .chunkLit))) newTypeChecker =
      .ok ((),
        { symbol_table := [], used_variables := [], inheritance_map := none,
          output := [.showOut "chunk"] }) ∧
    visitStmt (.showStmt 2 0 (singleTermExpr 2 5 (.var 2 5 "$n")))
      { symbol_table := [("$n", ⟨"none", 1⟩)], used_variables := [],
        inheritance_map := none, output := [] } =
      .error (.invalidOperation (showNoneMsg 2 0),
        { symbol_table := [("$n", ⟨"none", 1⟩)], used_variables := ["$n"],
          inheritance_map := none, output := [] }) := by
  constructor
  · have h := c8_show_statement newTypeChecker 1 0
        (singleTermExpr 1 5 (.lit .chunkLit)) "chunk" [] rfl
    exact h.trans rfl
  · have h := c8_show_statement ⟨[("$n", ⟨"none", 1⟩)], [], none, []⟩ 2 0
        (singleTermExpr 2 5 (.var 2 5 "$n")) "none" ["$n"] rfl
    exact h.trans rfl

/-- Claim C10: during a variable declaration the new entry is inserted
before the initializer is checked: an initializer referencing the
declared variable itself succeeds and marks the variable used, and when
the initializer check fails (for any raised error, including the
`TypeMismatchError` case) the error state still contains the freshly
inserted entry — the insertion is not rolled back. -/
theorem c10_insert_before_initializer :
    (∀ (s : CheckerState) (line col l2 c2 : Nat) (name type_ : String),
      startsWithSigil name = true → valid_variable_pattern_match (dropSigil name) = true →
      dictContains s.symbol_table name = false →
      visitStmt (.varDecl line col name type_
          (some (singleTermExpr l2 c2 (.var l2 c2 name)))) s =
        .ok ((),
          { s with
              symbol_table := dictSet s.symbol_table name ⟨type_, line⟩,
              used_variables := setAdd s.used_variables name }) ∧
      (setAdd s.used_variables name).contains name = true) ∧
    (∀ (s s' : CheckerState) (line col : Nat) (name type_ : String) (e : Expr)
        (err : CheckError),
      startsWithSigil name = true → valid_variable_pattern_match (dropSigil name) = true →
      dictContains s.symbol_table name = false →
      visitStmt (.varDecl line col name type_ (some e)) s = .error (err, s') →
      dictGet? s'.symbol_table name = some ⟨type_, line⟩) := by
  constructor
  · intro s line col l2 c2 name type_ hsig hpat habs
    refine ⟨?_, setAdd_contains _ _⟩
    simp [visitStmt, visitVariableDeclaration, hsig, hpat, habs, singleTermExpr,
      visitExpression, visitMultiplicative, multiplicativeFold, additiveFold,
      visitTerm, dictGet_dictSet_same]
  · intro s s' line col name type_ e err hsig hpat habs herr
    rcases hv : visitExpression (dictSet s.symbol_table name ⟨type_, line⟩) e
        s.used_variables with ⟨e1, used1⟩ | ⟨t, used⟩
    · simp [visitStmt, visitVariableDeclaration, hsig, hpat, habs, hv] at herr
      rw [← herr.2]
      simpa using dictGet_dictSet_same s.symbol_table name ⟨type_, line⟩
    · by_cases ht : t = type_
      · simp [visitStmt, visitVariableDeclaration, hsig, hpat, habs, hv, ht] at herr
      · simp [visitStmt, visitVariableDeclaration, hsig, hpat, habs, hv, ht] at herr
        rw [← herr.2]
        simpa using dictGet_dictSet_same s.symbol_table name ⟨type_, line⟩

/-- Witness for C10: the self-referencing declaration `$r: chunk = $r`
succeeds, marking `$r` used; the failing declaration
`$w: chunk = <string literal>` raises a `TypeMismatchError` whose error
state still holds the `$w` entry. -/
theorem c10_witness :
    visitStmt (.varDecl 1 0 "$r" "chunk"
        (some (singleTermExpr 1 10 (.var 1 10 "$r")))) newTypeChecker =
      .ok ((),
        { symbol_table := [("$r", ⟨"chunk", 1⟩)], used_variables := ["$r"],
          inheritance_map := none, output := [] }) ∧
    dictGet? ([("$w", ⟨"chunk", 1⟩)] : List (String × SymEntry)) "$w" =
      some ⟨"chunk", 1⟩ := by
  constructor
  · have h := (c10_insert_before_initializer.1 newTypeChecker 1 0 1 10 "$r" "chunk"
        rfl rfl rfl).1
    exact h.trans rfl
  · exact c10_insert_before_initializer.2 newTypeChecker
      ⟨[("$w", ⟨"chunk", 1⟩)], [], none, []⟩ 1 0 "$w" "chunk"
      (singleTermExpr 1 10 (.lit .stringLit))
      (.typeMismatch (declMismatchMsg "string" "chunk" "$w" 1 0)) rfl rfl rfl rfl

end PyTypeCheck
